import Mathlib

/-!
Verification development for `packages/apputils/src/sessioncontext.tsx`:
the `SessionContext` session/kernel lifecycle manager and its kernel
selection algorithm.  TypeScript values with JavaScript truthiness are
embedded as `Option` types with explicit truthiness functions; the
asynchronous, effectful methods are embedded as explicit state-passing
functions that also produce a log of externally observable effects.
-/

namespace SessionCtx

/-- Truthiness of an optional string in JavaScript: `undefined` and the
empty string are falsy, every other string is truthy. -/
def jsTruthyS : Option String → Bool
  | none => false
  | some s => !s.isEmpty

/-- Truthiness of an optional boolean in JavaScript: `undefined` and
`false` are falsy. -/
def jsTruthyB : Option Bool → Bool
  | none => false
  | some b => b

/-- One kernel spec entry (`KernelSpec.ISpecModel` fields used by the code). -/
structure KernelSpecModel where
  display_name : String
  language : String
  deriving DecidableEq, Repr

/-- The kernel spec catalog (`KernelSpec.ISpecModels`): the designated
default name plus the `kernelspecs` string-keyed object, modeled as an
association list in object-key insertion order. -/
structure SpecModels where
  default : String
  kernelspecs : List (String × KernelSpecModel)
  deriving DecidableEq, Repr

/-- A kernel preference (`ISessionContext.IKernelPreference`): every field
is optional in TypeScript, so each is an `Option` here; `none` models an
absent (`undefined`) field. -/
structure KernelPreference where
  name : Option String := none
  language : Option String := none
  id : Option String := none
  shouldStart : Option Bool := none
  canStart : Option Bool := none
  shutdownOnDispose : Option Bool := none
  autoStartDefault : Option Bool := none
  deriving DecidableEq, Repr

/-- Embeds `Private.getDefaultKernel` (sessioncontext.tsx lines
1081-1140).  Guard clauses, the `autoStartDefault` fallback, the exact
name-match loop, and the single-language-match rule follow the source
line by line; `specs = none` models the `!specs` (catalog not loaded)
case, and strict `=== false` comparisons are `= some false`. -/
def getDefaultKernel (specs : Option SpecModels) (preference : KernelPreference) :
    Option String :=
  match specs with
  | none => none
  | some sp =>
    if preference.shouldStart = some false ∨ preference.canStart = some false then
      none
    else
      let defaultName := if jsTruthyB preference.autoStartDefault then some sp.default else none
      if ¬ jsTruthyS preference.name ∧ ¬ jsTruthyS preference.language then
        defaultName
      else if sp.kernelspecs.any (fun p => preference.name = some p.1) then
        preference.name
      else if ¬ jsTruthyS preference.language then
        defaultName
      else
        match (sp.kernelspecs.filter
            (fun p => preference.language = some p.2.language)).map (fun p => p.1) with
        | [m] => some m
        | _ => defaultName

/-- C3: with `shouldStart` and `canStart` not `false`, `name` unset or
matching no catalog key, and `language` set: a unique language match is
returned; zero or several matches yield the fallback (the catalog default
if `autoStartDefault` is truthy, else null). -/
theorem C3_language_resolution (C : SpecModels) (P : KernelPreference)
    (hss : P.shouldStart ≠ some false) (hcs : P.canStart ≠ some false)
    (hname : ∀ p ∈ C.kernelspecs, P.name ≠ some p.1)
    (hlang : jsTruthyS P.language = true) :
    (∀ m, (C.kernelspecs.filter
        (fun p => P.language = some p.2.language)).map (fun p => p.1) = [m] →
      getDefaultKernel (some C) P = some m) ∧
    (((C.kernelspecs.filter
        (fun p => P.language = some p.2.language)).map (fun p => p.1)).length ≠ 1 →
      getDefaultKernel (some C) P =
        (if jsTruthyB P.autoStartDefault then some C.default else none)) := by
  have hany : C.kernelspecs.any (fun p => P.name = some p.1) = false := by
    rw [List.any_eq_false]
    intro p hp
    simp only [decide_eq_true_eq]
    exact hname p hp
  constructor
  · intro m hm
    simp only [getDefaultKernel, hss, hcs, or_self, if_false, hlang, hany,
      Bool.false_eq_true, not_true_eq_false, and_false, if_false, hm, false_or]
  · intro hlen
    simp only [getDefaultKernel]
    rw [if_neg (by simp [hss, hcs])]
    rw [if_neg (by simp [hlang])]
    rw [if_neg (by simp [hany])]
    rw [if_neg (by simp [hlang])]
    rcases hms : (C.kernelspecs.filter
        (fun p => P.language = some p.2.language)).map (fun p => p.1) with _ | ⟨m, _ | ⟨m2, rest⟩⟩
    · rw [hms]
    · exact absurd (by rw [hms]; rfl) hlen
    · rw [hms]

/-- Closed witness for C3 at a two-entry catalog with a unique `r` match. -/
theorem C3_language_resolution_witness :
    getDefaultKernel
      (some { default := "python3",
              kernelspecs := [("python3", { display_name := "Python 3", language := "python" }),
                              ("ir", { display_name := "R", language := "r" })] })
      { language := some "r" } = some "ir" :=
  (C3_language_resolution
    { default := "python3",
      kernelspecs := [("python3", { display_name := "Python 3", language := "python" }),
                      ("ir", { display_name := "R", language := "r" })] }
    { language := some "r" }
    (by decide) (by decide) (by decide) (by decide)).1 "ir" (by decide)

/-- C4: the spec's worked example.  Catalog default `python3`, specs
`python3`/`python2` (language `python`) and `ir` (language `r`);
preference with `language = "python"` and every other field at its
documented default (`shouldStart = true`, `canStart = true`,
`shutdownOnDispose = false`, `autoStartDefault = true`): two language
matches, so the default fallback `python3` is returned. -/
theorem C4_two_matches_fallback :
    getDefaultKernel
      (some { default := "python3",
              kernelspecs := [("python3", { display_name := "Python 3", language := "python" }),
                              ("python2", { display_name := "Python 2", language := "python" }),
                              ("ir", { display_name := "R", language := "r" })] })
      { language := some "python", shouldStart := some true, canStart := some true,
        shutdownOnDispose := some false, autoStartDefault := some true } =
      some "python3" := by decide

/-- C5: a null result whenever the catalog is absent or `shouldStart` or
`canStart` is literally `false`, independently of every other field. -/
theorem C5_guard_null (specs : Option SpecModels) (P : KernelPreference)
    (h : specs = none ∨ P.shouldStart = some false ∨ P.canStart = some false) :
    getDefaultKernel specs P = none := by
  rcases h with h | h | h
  · simp [getDefaultKernel, h]
  · cases specs <;> simp [getDefaultKernel, h]
  · cases specs <;> simp [getDefaultKernel, h]

/-- Closed witness for C5 with a present catalog and `canStart = false`. -/
theorem C5_guard_null_witness :
    getDefaultKernel
      (some { default := "python3",
              kernelspecs := [("python3", { display_name := "Python 3", language := "python" })] })
      { name := some "python3", canStart := some false, autoStartDefault := some true } = none :=
  C5_guard_null _ _ (Or.inr (Or.inr rfl))

/-- Kernel execution statuses (`Kernel.Status`). -/
inductive KStatus
  | unknown
  | starting
  | idle
  | busy
  | terminating
  | restarting
  | autorestarting
  | dead
  deriving DecidableEq, Repr

/-- A kernel connection (`Kernel.IKernelConnection`), reduced to the
fields the session context reads: name, status, and whether the
connection object has been disposed. -/
structure KernelConn where
  name : String
  status : KStatus
  connIsDisposed : Bool := false
  deriving DecidableEq, Repr

/-- A session connection (`Session.ISessionConnection`), reduced to the
fields the session context reads.  `id` is the object identity used to
track event subscriptions; `kernel` is nullable in the services API. -/
structure SessionConn where
  id : Nat
  path : String
  name : String
  type : String
  kernel : Option KernelConn
  deriving DecidableEq, Repr

/-- A partial kernel model (`Partial<Kernel.IModel>`) as passed to
`changeKernel` and `startNew`. -/
structure KernelOptions where
  name : Option String := none
  id : Option String := none
  deriving DecidableEq, Repr

/-- Errors thrown or rejected by the session context methods.
`nullKernelTypeError` models the JavaScript `TypeError` raised when
`_changeKernel` reads `session.kernel.status` while `kernel` is null. -/
inductive Err
  | disposedErr
  | sessionAlreadyDisposed
  | noKernelToRestart
  | nullKernelTypeError
  | remoteStartError
  | inPlaceChangeError
  | attachError
  | shutdownError
  | remoteRestartError
  deriving DecidableEq, Repr

/-- The three renameable session properties. -/
inductive PropKind
  | path
  | name
  | type
  deriving DecidableEq, Repr

/-- Externally observable effects of the session context: manager signal
emissions, subscriptions, and remote requests, in program order. -/
inductive Effect
  | startNewReq (path ty nm : String) (kernel : KernelOptions)
  | sessionCreated (connId : Nat)
  | unsubscribeAll (connId : Nat)
  | subscribeAll (connId : Nat)
  | inPlaceChange (connId : Nat)
  | emitTerminated
  | emitPropertyChanged (p : PropKind)
  | emitKernelChanged (oldV newV : Option KernelConn)
  | emitStatusChanged (st : KStatus)
  | emitSessionShutdownReq (connId : Nat)
  | emitDisposed
  | resolveReady
  | dialogLaunched
  | kernelRestartReq
  | busyAcquire
  | busyRelease
  deriving DecidableEq, Repr

/-- The mutable state of a `SessionContext` instance (its private
fields).  `prevKernelName = none` models both the initial `''` and an
`undefined` assignment from `session.kernel?.name`; `startNewCalls`
indexes the environment's stream of `startNew` outcomes. -/
structure SCState where
  path : String
  name : String
  type : String
  prevKernelName : Option String
  kernelPreference : KernelPreference
  isDisposed : Bool
  session : Option SessionConn
  readyResolved : Bool
  initializing : Bool
  isReady : Bool
  dialog : Bool
  busyDisposable : Bool
  startNewCalls : Nat
  deriving DecidableEq, Repr

/-- The environment: outcomes of every awaited external collaborator
(session directory, spec catalog, dialogs, remote kernel calls). -/
structure Env where
  modelAtPath : Bool
  connectToResult : Except Unit SessionConn
  specs : Option SpecModels
  startNewResults : Nat → Except Unit SessionConn
  inPlaceResult : Except Unit KernelConn
  dialogAccept : Bool
  dialogValue : Option KernelOptions
  shutdownOk : Bool
  restartAccept : Bool
  kernelRestartOk : Bool

/-- Result type of an effectful method: outcome, post-state, effect log. -/
abbrev M (α : Type) := Except Err α × SCState × List Effect

/-- Property synchronization step of `_handleNewSession` (lines 736-744):
emit a synthetic property change, via `_onPropertyChanged` (792-810), for
each of path, name, type that differs from the cached value. -/
def propSync (s : SCState) (sess : SessionConn) : SCState × List Effect :=
  let s1 := if sess.path ≠ s.path then { s with path := sess.path } else s
  let l1 : List Effect :=
    if sess.path ≠ s.path then [Effect.emitPropertyChanged PropKind.path] else []
  let s2 := if sess.name ≠ s1.name then { s1 with name := sess.name } else s1
  let l2 : List Effect :=
    if sess.name ≠ s1.name then [Effect.emitPropertyChanged PropKind.name] else []
  let s3 := if sess.type ≠ s2.type then { s2 with type := sess.type } else s2
  let l3 : List Effect :=
    if sess.type ≠ s2.type then [Effect.emitPropertyChanged PropKind.type] else []
  (s3, l1 ++ l2 ++ l3)

/-- Embeds `_handleNewSession` (lines 713-754).  Disposing the outgoing
connection clears all of its signal connections (the Lumino disposable
contract assumed by the code) and synchronously fires its `disposed`
signal, whose handler `_onSessionDisposed` (781-787) nulls `_session` and
emits `terminated`; only then is the incoming connection stored,
subscribed, property-synced, and announced with `oldValue = null`. -/
def handleNewSession (s : SCState) (sess : SessionConn) : M (Option KernelConn) :=
  if s.isDisposed then (Except.error Err.disposedErr, s, [])
  else
    let (s1, log1) :=
      match s.session with
      | some old => ({ s with session := none },
          [Effect.unsubscribeAll old.id, Effect.emitTerminated])
      | none => (s, [])
    let s2 := { s1 with
      session := some sess,
      prevKernelName := sess.kernel.map (fun k => k.name) }
    let (s3, log3) := propSync s2 sess
    (Except.ok sess.kernel, s3,
      log1 ++ [Effect.subscribeAll sess.id] ++ log3 ++
        [Effect.emitKernelChanged none sess.kernel])

/-- Embeds `_startSession` (lines 690-708): a `startNew` request built
from the cached identity triple, whose outcome is drawn from the
environment's stream; a successful start is handed to
`_handleNewSession`, a failed one is rethrown. -/
def startSession (env : Env) (s : SCState) (model : KernelOptions) :
    M (Option KernelConn) :=
  if s.isDisposed then (Except.error Err.sessionAlreadyDisposed, s, [])
  else
    let i := s.startNewCalls
    let s1 := { s with startNewCalls := i + 1 }
    let req := Effect.startNewReq s.path s.type s.name model
    match env.startNewResults i with
    | Except.error _ => (Except.error Err.remoteStartError, s1, [req])
    | Except.ok sess =>
      let r := handleNewSession s1 sess
      (r.1, r.2.1, req :: Effect.sessionCreated sess.id :: r.2.2)

/-- Embeds `_changeKernel` (lines 631-648).  With a session attached the
code reads `session.kernel.status` with no null guard: a null kernel is
the JavaScript `TypeError`, modeled as `Err.nullKernelTypeError`.  A live
(non-dead) kernel delegates to the connection's in-place kernel swap;
otherwise a brand-new session is started. -/
def changeKernelPriv (env : Env) (s : SCState) (options : KernelOptions) :
    M (Option KernelConn) :=
  if s.isDisposed then (Except.error Err.disposedErr, s, [])
  else
    match s.session with
    | some sess =>
      match sess.kernel with
      | none => (Except.error Err.nullKernelTypeError, s, [])
      | some k =>
        if k.status ≠ KStatus.dead then
          match env.inPlaceResult with
          | Except.error _ => (Except.error Err.inPlaceChangeError, s, [])
          | Except.ok knew =>
            (Except.ok (some knew),
              { s with session := some { sess with kernel := some knew } },
              [Effect.inPlaceChange sess.id])
        else startSession env s options
    | none => startSession env s options

/-- Embeds `shutdown` (lines 518-520): request remote termination of the
current session, if any, surfacing the outcome to the caller. -/
def shutdownCtx (env : Env) (s : SCState) : M Unit :=
  match s.session with
  | none => (Except.ok (), s, [])
  | some sess =>
    if env.shutdownOk then (Except.ok (), s, [Effect.emitSessionShutdownReq sess.id])
    else (Except.error Err.shutdownError, s, [Effect.emitSessionShutdownReq sess.id])

/-- Embeds `_selectKernel` (lines 655-685): launch the selection dialog
(outcome from the environment); on accept with the null choice shut down
any current session, on accept with a kernel model delegate to
`_changeKernel`, otherwise do nothing. -/
def selectKernelPriv (env : Env) (s : SCState) (cancelable : Bool) : M Unit :=
  if s.isDisposed then (Except.ok (), s, [])
  else
    let _ := cancelable
    let s0 := { s with dialog := false }
    if s0.isDisposed ∨ env.dialogAccept = false then (Except.ok (), s0, [Effect.dialogLaunched])
    else
      match env.dialogValue with
      | none =>
        match s0.session with
        | some _ =>
          let r := shutdownCtx env s0
          (r.1, r.2.1, Effect.dialogLaunched :: r.2.2)
        | none => (Except.ok (), s0, [Effect.dialogLaunched])
      | some model =>
        let r := changeKernelPriv env s0 model
        (r.1.map (fun _ => ()), r.2.1, Effect.dialogLaunched :: r.2.2)

/-- Kernel identity resolution of `_startIfNecessary` (lines 601-613):
the explicit preference id when truthy, else the `getDefaultKernel`
result over the catalog snapshot, else no usable identity. -/
def resolveStartOptions (env : Env) (s : SCState) : Option KernelOptions :=
  if jsTruthyS s.kernelPreference.id then
    some { id := s.kernelPreference.id, name := none }
  else
    match getDefaultKernel env.specs s.kernelPreference with
    | some nm => some { name := some nm, id := none }
    | none => none

/-- Embeds `_startIfNecessary` (lines 589-626): nothing to do when
disposed, a live kernel exists, or the preference forbids starting;
otherwise try `_changeKernel` on the resolved identity, falling back to
the non-cancelable interactive selection if the identity is unusable or
the attempt fails. -/
def startIfNecessary (env : Env) (s : SCState) : M Unit :=
  if s.isDisposed ∨ (s.session.bind (fun sess => sess.kernel)).isSome
      ∨ s.kernelPreference.shouldStart = some false
      ∨ s.kernelPreference.canStart = some false then
    (Except.ok (), s, [])
  else
    match resolveStartOptions env s with
    | some opts =>
      match changeKernelPriv env s opts with
      | (Except.ok _, s1, log1) => (Except.ok (), s1, log1)
      | (Except.error _, s1, log1) =>
        let r := selectKernelPriv env s1 false
        (r.1, r.2.1, log1 ++ r.2.2)
    | none =>
      let r := selectKernelPriv env s false
      (r.1, r.2.1, r.2.2)

/-- Attach step of the `initialize` body (lines 569-580): when the
session directory reports a running session at the bound path, connect
to it and hand it to `_handleNewSession`; a failure of either is
rejected to the caller (the early `return Promise.reject(err)`). -/
def attachIfRunning (env : Env) (s : SCState) : M Unit :=
  if env.modelAtPath then
    match env.connectToResult with
    | Except.error _ => (Except.error Err.attachError, s, [])
    | Except.ok sess =>
      match handleNewSession s sess with
      | (Except.ok _, s1, log1) => (Except.ok (), s1, log1)
      | (Except.error e, s1, log1) => (Except.error e, s1, log1)
  else (Except.ok (), s, [])

/-- Embeds `initialize` (lines 562-584), run as one resumption of the
single started body.  The synchronous guard returns the shared ready
promise when a body is in flight or done; otherwise `_initializing` is
latched and the body runs: the attach step above, then
`_startIfNecessary`, and finally the ready marking and shared-promise
resolution — which the attach-failure early return skips. -/
def initializeSeq (env : Env) (s : SCState) : M Unit :=
  if s.initializing ∨ s.isReady then (Except.ok (), s, [])
  else
    match attachIfRunning env { s with initializing := true } with
    | (Except.error e, s1, log1) => (Except.error e, s1, log1)
    | (Except.ok _, s1, log1) =>
      match startIfNecessary env s1 with
      | (Except.error e, s2, log2) => (Except.error e, s2, log1 ++ log2)
      | (Except.ok _, s2, log2) =>
        (Except.ok (), { s2 with isReady := true, readyResolved := true },
          log1 ++ log2 ++ [Effect.resolveReady])

/-- Embeds the public `changeKernel` (lines 492-500): await
`initialize()`, fail if disposed, then delegate to `_changeKernel`. -/
def changeKernelPub (env : Env) (s : SCState) (options : KernelOptions) :
    M (Option KernelConn) :=
  match initializeSeq env s with
  | (Except.error e, s1, l1) => (Except.error e, s1, l1)
  | (Except.ok _, s1, l1) =>
    if s1.isDisposed then (Except.error Err.disposedErr, s1, l1)
    else
      let r := changeKernelPriv env s1 options
      (r.1, r.2.1, l1 ++ r.2.2)

/-- Embeds the static `SessionContext.restartKernel` (lines 961-980):
confirmation dialog, then `false` if the kernel connection was disposed,
else restart on accept. -/
def restartKernelFn (env : Env) (k : KernelConn) : Except Err Bool × List Effect :=
  if k.connIsDisposed then (Except.ok false, [Effect.dialogLaunched])
  else if env.restartAccept then
    if env.kernelRestartOk then
      (Except.ok true, [Effect.dialogLaunched, Effect.kernelRestartReq])
    else (Except.error Err.remoteRestartError, [Effect.dialogLaunched, Effect.kernelRestartReq])
  else (Except.ok false, [Effect.dialogLaunched])

/-- Embeds `restart` (lines 532-549): await `initialize()`, fail if
disposed; with a live kernel run the confirmation path; with none, start
from the recorded previous kernel name if truthy, else fail with the
no-kernel-to-restart error. -/
def restartCtx (env : Env) (s : SCState) : M Bool :=
  match initializeSeq env s with
  | (Except.error e, s1, l1) => (Except.error e, s1, l1)
  | (Except.ok _, s1, l1) =>
    if s1.isDisposed then (Except.error Err.disposedErr, s1, l1)
    else
      match s1.session.bind (fun sess => sess.kernel) with
      | some k =>
        let r := restartKernelFn env k
        (r.1, s1, l1 ++ r.2)
      | none =>
        if jsTruthyS s1.prevKernelName then
          match changeKernelPub env s1 { name := s1.prevKernelName, id := none } with
          | (Except.ok _, s2, l2) => (Except.ok true, s2, l1 ++ l2)
          | (Except.error e, s2, l2) => (Except.error e, s2, l1 ++ l2)
        else (Except.error Err.noKernelToRestart, s1, l1)

/-- Embeds `dispose` (lines 461-487): a no-op when already disposed;
otherwise set the terminal flag, fire-and-forget a session shutdown when
`shutdownOnDispose` is truthy, dispose the session connection (clearing
its subscriptions and, through its `disposed` signal, emitting
`terminated`), dispose any dialog, release a held busy lease, and emit
the disposal notification. -/
def disposeCtx (s : SCState) : SCState × List Effect :=
  if s.isDisposed then (s, [])
  else
    let s0 := { s with isDisposed := true }
    let (s1, log1) :=
      match s0.session with
      | some sess =>
        let shut :=
          if jsTruthyB s0.kernelPreference.shutdownOnDispose then
            [Effect.emitSessionShutdownReq sess.id]
          else []
        ({ s0 with session := none },
          shut ++ [Effect.unsubscribeAll sess.id, Effect.emitTerminated])
      | none => (s0, [])
    let s2 := { s1 with dialog := false }
    let (s3, log3) :=
      if s2.busyDisposable then ({ s2 with busyDisposable := false }, [Effect.busyRelease])
      else (s2, [])
    (s3, log1 ++ log3 ++ [Effect.emitDisposed])

/-- Recognizes a successful remote session creation in an effect log. -/
def isSessionCreated : Effect → Bool
  | Effect.sessionCreated _ => true
  | _ => false

/-- Recognizes the resolution of the shared ready promise. -/
def isResolveReady : Effect → Bool
  | Effect.resolveReady => true
  | _ => false

/-- Recognizes the terminal disposal notification. -/
def isEmitDisposed : Effect → Bool
  | Effect.emitDisposed => true
  | _ => false

/-- Recognizes a busy-lease release. -/
def isBusyRelease : Effect → Bool
  | Effect.busyRelease => true
  | _ => false

/-- Recognizes a busy-lease acquisition. -/
def isBusyAcquire : Effect → Bool
  | Effect.busyAcquire => true
  | _ => false

/-- Number of remote session creations recorded in a log. -/
def creations (l : List Effect) : Nat := l.countP isSessionCreated

/-- Number of ready-promise resolutions recorded in a log. -/
def resolves (l : List Effect) : Nat := l.countP isResolveReady

/-- C6: `dispose()` is idempotent.  The second call is a strict no-op
(identical state, no effects); across both calls the disposal
notification is emitted exactly once and the busy lease is released
exactly once when held, never otherwise. -/
theorem C6_dispose_idempotent (s : SCState) (h : s.isDisposed = false) :
    (disposeCtx (disposeCtx s).1).1 = (disposeCtx s).1 ∧
    (disposeCtx (disposeCtx s).1).2 = [] ∧
    (disposeCtx s).2.countP isEmitDisposed = 1 ∧
    (disposeCtx s).2.countP isBusyRelease = (if s.busyDisposable then 1 else 0) := by
  cases hsess : s.session <;> cases hb : s.busyDisposable <;>
    cases hshut : jsTruthyB s.kernelPreference.shutdownOnDispose <;>
      simp [disposeCtx, h, hsess, hb, hshut, isEmitDisposed, isBusyRelease,
        List.countP_cons, List.countP_append]

/-- A concrete live session connection used by witnesses. -/
def sampleConn : SessionConn :=
  { id := 7
    path := "p"
    name := "n"
    type := "t"
    kernel := some { name := "python3", status := KStatus.busy } }

/-- A concrete ready, busy, undisposed context used by witnesses. -/
def sampleReadyState : SCState :=
  { path := "p"
    name := "n"
    type := "t"
    prevKernelName := some "python3"
    kernelPreference := { shutdownOnDispose := some true }
    isDisposed := false
    session := some sampleConn
    readyResolved := true
    initializing := true
    isReady := true
    dialog := true
    busyDisposable := true
    startNewCalls := 0 }

/-- Closed witness for C6 at a live context holding the busy lease. -/
theorem C6_dispose_idempotent_witness :
    (disposeCtx (disposeCtx sampleReadyState).1).2 = [] ∧
    (disposeCtx sampleReadyState).2.countP isBusyRelease = 1 :=
  ⟨(C6_dispose_idempotent sampleReadyState rfl).2.1,
   (C6_dispose_idempotent sampleReadyState rfl).2.2.2⟩

/-- Helper: the property-sync step leaves every non-identity field of the
state unchanged; in particular the session field. -/
theorem propSync_session (s : SCState) (sess : SessionConn) :
    (propSync s sess).1.session = s.session := by
  simp only [propSync]
  repeat' split
  all_goals rfl

/-- Helper: the property-sync log consists of property-change emissions
only, so it contains no effect of any other kind. -/
theorem propSync_countP (s : SCState) (sess : SessionConn) (p : Effect → Bool)
    (hp : ∀ q, p (Effect.emitPropertyChanged q) = false) :
    (propSync s sess).2.countP p = 0 := by
  simp only [propSync]
  repeat' split
  all_goals simp [List.countP_cons, List.countP_append, hp]

/-- Helper: `_handleNewSession` can only fail with the disposed error. -/
theorem handleNewSession_error_cases (s : SCState) (sess : SessionConn) (e : Err)
    (h : (handleNewSession s sess).1 = Except.error e) : e = Err.disposedErr := by
  rcases hd : s.isDisposed with _ | _ <;> rcases hsess : s.session with _ | old <;>
    simp [handleNewSession, hd, hsess] at h <;> exact h.symm

/-- Helper: after a successful `_handleNewSession` the incoming
connection is the retained session. -/
theorem handleNewSession_session (s : SCState) (sess : SessionConn)
    (hd : s.isDisposed = false) :
    (handleNewSession s sess).2.1.session = some sess := by
  rcases hsess : s.session with _ | old <;>
    simp [handleNewSession, hd, hsess, propSync_session]

/-- Helper: counting in a `_handleNewSession` log any effect kind the
attach step never produces yields zero. -/
theorem handleNewSession_countP (s : SCState) (sess : SessionConn) (p : Effect → Bool)
    (hunsub : ∀ i, p (Effect.unsubscribeAll i) = false)
    (hterm : p Effect.emitTerminated = false)
    (hsub : ∀ i, p (Effect.subscribeAll i) = false)
    (hpc : ∀ q, p (Effect.emitPropertyChanged q) = false)
    (hkc : ∀ a b, p (Effect.emitKernelChanged a b) = false) :
    (handleNewSession s sess).2.2.countP p = 0 := by
  rcases hd : s.isDisposed with _ | _ <;> rcases hsess : s.session with _ | old <;>
    simp [handleNewSession, hd, hsess, List.countP_cons, List.countP_append,
      propSync_countP _ _ p hpc, hunsub, hterm, hsub, hkc]

/-- Helper: `_startSession` never raises the null-kernel type error. -/
theorem startSession_error_cases (env : Env) (s : SCState) (m : KernelOptions) (e : Err)
    (h : (startSession env s m).1 = Except.error e) :
    e = Err.sessionAlreadyDisposed ∨ e = Err.remoteStartError ∨ e = Err.disposedErr := by
  rcases hd : s.isDisposed with _ | _
  · rcases hr : env.startNewResults s.startNewCalls with _ | sess
    · simp [startSession, hd, hr] at h
      exact Or.inr (Or.inl h.symm)
    · simp [startSession, hd, hr] at h
      exact Or.inr (Or.inr (handleNewSession_error_cases _ _ _ h))
  · simp [startSession, hd] at h
    exact Or.inl h.symm

/-- The implicit precondition documented by C10: every retained session
connection exposes a kernel, or no session is retained. -/
def kernelAttachedInvariant (s : SCState) : Prop :=
  ∀ sess, s.session = some sess → sess.kernel ≠ none

/-- C10: `_changeKernel` reads `session.kernel.status` without a null
guard; under the invariant that every retained session exposes a kernel
(or the session reference is null) this unguarded read never faults, for
any options and any environment. -/
theorem C10_no_null_kernel_fault (env : Env) (s : SCState) (opts : KernelOptions)
    (h : kernelAttachedInvariant s) :
    (changeKernelPriv env s opts).1 ≠ Except.error Err.nullKernelTypeError := by
  intro hfault
  rcases hd : s.isDisposed with _ | _
  · rcases hsess : s.session with _ | sess
    · simp only [changeKernelPriv, hd, Bool.false_eq_true, if_false, hsess] at hfault
      rcases startSession_error_cases env s opts _ hfault with h1 | h1 | h1 <;> simp at h1
    · rcases hk : sess.kernel with _ | k
      · exact h sess hsess hk
      · by_cases hst : k.status = KStatus.dead
        · simp only [changeKernelPriv, hd, Bool.false_eq_true, if_false, hsess, hk, hst,
            ne_eq, not_true_eq_false, if_false] at hfault
          rcases startSession_error_cases env s opts _ hfault with h1 | h1 | h1 <;> simp at h1
        · rcases hip : env.inPlaceResult with _ | knew <;>
            simp [changeKernelPriv, hd, hsess, hk, hst, hip] at hfault
  · simp [changeKernelPriv, hd] at hfault

/-- Closed witness for C10 at a context with no session attached. -/
theorem C10_no_null_kernel_fault_witness :
    (changeKernelPriv
      { modelAtPath := false, connectToResult := Except.error (), specs := none,
        startNewResults := fun _ => Except.error (), inPlaceResult := Except.error (),
        dialogAccept := false, dialogValue := none, shutdownOk := true,
        restartAccept := false, kernelRestartOk := true }
      { sampleReadyState with session := none } { name := some "python3" }).1 ≠
      Except.error Err.nullKernelTypeError :=
  C10_no_null_kernel_fault _ _ _ (by intro sess hs; simp [sampleReadyState] at hs)

/-- Whether an event arriving from connection `c` is still delivered to
the context: only the currently attached connection is subscribed (a
detached connection had its signal connections cleared by its dispose). -/
def deliveredFrom (s : SCState) (c : Nat) : Bool :=
  match s.session with
  | some sess => sess.id == c
  | none => false

/-- Recognizes any kernel-changed emission by the manager. -/
def isKernelChangedEmit : Effect → Bool
  | Effect.emitKernelChanged _ _ => true
  | _ => false

/-- C9: replacing the current connection first detaches the outgoing one
(unsubscribing all its channels) and only then attaches the incoming one;
afterwards no event from the detached connection is delivered, and the
manager emits exactly one kernel-changed notification, with
`oldValue = null`. -/
theorem C9_replacement_detach_before_attach (s : SCState) (old incoming : SessionConn)
    (hold : s.session = some old) (hdisp : s.isDisposed = false)
    (hne : old.id ≠ incoming.id) :
    (handleNewSession s incoming).2.2.take 3 =
      [Effect.unsubscribeAll old.id, Effect.emitTerminated,
       Effect.subscribeAll incoming.id] ∧
    (handleNewSession s incoming).2.2.countP isKernelChangedEmit = 1 ∧
    Effect.emitKernelChanged none incoming.kernel ∈ (handleNewSession s incoming).2.2 ∧
    (handleNewSession s incoming).2.1.session = some incoming ∧
    deliveredFrom (handleNewSession s incoming).2.1 old.id = false := by
  refine ⟨?_, ?_, ?_, handleNewSession_session s incoming hdisp, ?_⟩
  · simp [handleNewSession, hdisp, hold]
  · simp [handleNewSession, hdisp, hold, List.countP_cons, List.countP_append,
      propSync_countP _ _ isKernelChangedEmit (fun _ => rfl), isKernelChangedEmit]
  · simp [handleNewSession, hdisp, hold]
  · simp only [deliveredFrom, handleNewSession_session s incoming hdisp]
    simpa using fun h => hne h.symm

/-- Closed witness for C9: replacing `sampleConn` (id 7) by a fresh
connection with id 8. -/
theorem C9_replacement_detach_before_attach_witness :
    (handleNewSession sampleReadyState
        { id := 8, path := "p2", name := "n", type := "t",
          kernel := some { name := "ir", status := KStatus.idle } }).2.2.take 3 =
      [Effect.unsubscribeAll 7, Effect.emitTerminated, Effect.subscribeAll 8] ∧
    deliveredFrom (handleNewSession sampleReadyState
        { id := 8, path := "p2", name := "n", type := "t",
          kernel := some { name := "ir", status := KStatus.idle } }).2.1 7 = false :=
  ⟨(C9_replacement_detach_before_attach sampleReadyState sampleConn _ rfl rfl
      (by decide)).1,
   (C9_replacement_detach_before_attach sampleReadyState sampleConn _ rfl rfl
      (by decide)).2.2.2.2⟩

/-- State of the busy-lease tracker: whether the external lease is held,
whether the context has been disposed, and the last kernel status that
was observed (delivered) before disposal. -/
structure BState where
  busyHeld : Bool
  disposed : Bool
  lastStatus : Option KStatus
  deriving DecidableEq, Repr

/-- Events reaching the busy-lease logic: a kernel status change from the
attached connection, or disposal of the context. -/
inductive BEvent
  | status (st : KStatus)
  | disposeEv
  deriving DecidableEq, Repr

/-- Embeds `_onStatusChanged` (lines 825-847) with a busy-lease factory
configured: on `busy` acquire the lease unless already held, on any other
status release it if held, then proxy the status signal. -/
def onStatusStep (st : KStatus) (s : BState) : BState × List Effect :=
  if st = KStatus.busy then
    if s.busyHeld then
      ({ s with lastStatus := some st }, [Effect.emitStatusChanged st])
    else
      ({ s with busyHeld := true, lastStatus := some st },
        [Effect.busyAcquire, Effect.emitStatusChanged st])
  else
    if s.busyHeld then
      ({ s with busyHeld := false, lastStatus := some st },
        [Effect.busyRelease, Effect.emitStatusChanged st])
    else
      ({ s with lastStatus := some st }, [Effect.emitStatusChanged st])

/-- Embeds the busy-lease fragment of `dispose` (lines 461-465 and
481-484): a no-op when already disposed, otherwise the terminal flag is
set and a held lease is released. -/
def busyDisposeStep (s : BState) : BState × List Effect :=
  if s.disposed then (s, [])
  else if s.busyHeld then
    ({ s with disposed := true, busyHeld := false }, [Effect.busyRelease])
  else ({ s with disposed := true }, [])

/-- One busy-tracker step.  After disposal `Signal.clearData(this)`
(line 486) has disconnected `_onStatusChanged`, so a status event is no
longer delivered and leaves the state untouched. -/
def bStep (s : BState) : BEvent → BState × List Effect
  | BEvent.status st => if s.disposed then (s, []) else onStatusStep st s
  | BEvent.disposeEv => busyDisposeStep s

/-- Run the busy tracker over an event trace, accumulating effects. -/
def bRun (s : BState) : List BEvent → BState × List Effect
  | [] => (s, [])
  | e :: rest =>
    let r1 := bStep s e
    let r2 := bRun r1.1 rest
    (r2.1, r1.2 ++ r2.2)

/-- The fresh busy-tracker state: no lease, not disposed, nothing seen. -/
def bInit : BState := { busyHeld := false, disposed := false, lastStatus := none }

/-- Busy-tracker invariant: the lease is held exactly when the last
observed status is busy and the context is not disposed. -/
def busyInv (s : BState) : Prop :=
  s.busyHeld = true ↔ (s.disposed = false ∧ s.lastStatus = some KStatus.busy)

/-- Helper: one step preserves the busy invariant and the lease-count
balance (acquisitions minus releases equals the held flag). -/
theorem bStep_inv (s : BState) (e : BEvent) (h : busyInv s) :
    busyInv (bStep s e).1 ∧
    (bStep s e).2.countP isBusyAcquire + (if s.busyHeld then 1 else 0) =
      (bStep s e).2.countP isBusyRelease + (if (bStep s e).1.busyHeld then 1 else 0) := by
  rcases e with st | _
  · rcases hd : s.disposed with _ | _
    · by_cases hst : st = KStatus.busy <;> rcases hb : s.busyHeld with _ | _ <;>
        simp_all [bStep, onStatusStep, busyInv, isBusyAcquire, isBusyRelease,
          List.countP_cons]
    · simp_all [bStep, busyInv]
  · rcases hd : s.disposed with _ | _ <;> rcases hb : s.busyHeld with _ | _ <;>
      simp_all [bStep, busyDisposeStep, busyInv, isBusyAcquire, isBusyRelease,
        List.countP_cons]

/-- Helper: the invariant and the count balance extend to whole traces. -/
theorem bRun_inv (evs : List BEvent) (s : BState) (h : busyInv s) :
    busyInv (bRun s evs).1 ∧
    (bRun s evs).2.countP isBusyAcquire + (if s.busyHeld then 1 else 0) =
      (bRun s evs).2.countP isBusyRelease + (if (bRun s evs).1.busyHeld then 1 else 0) := by
  induction evs generalizing s with
  | nil => simpa [bRun] using h
  | cons e rest ih =>
    have h1 := bStep_inv s e h
    have h2 := ih (bStep s e).1 h1.1
    refine ⟨by simpa [bRun] using h2.1, ?_⟩
    simp only [bRun, List.countP_append]
    omega

/-- C7: with a busy-lease factory configured, after any sequence of
delivered status changes and disposals the lease is held iff the last
observed status is busy and the context is not disposed; and the log
balance (acquisitions = releases + held) shows at most one lease is ever
outstanding, released exactly once on leaving busy or on disposal. -/
theorem C7_busy_lease_tracking (evs : List BEvent) :
    ((bRun bInit evs).1.busyHeld = true ↔
      ((bRun bInit evs).1.disposed = false ∧
        (bRun bInit evs).1.lastStatus = some KStatus.busy)) ∧
    (bRun bInit evs).2.countP isBusyAcquire =
      (bRun bInit evs).2.countP isBusyRelease +
        (if (bRun bInit evs).1.busyHeld then 1 else 0) := by
  have h := bRun_inv evs bInit (by simp [busyInv, bInit])
  refine ⟨h.1, ?_⟩
  have h2 := h.2
  rw [show (if bInit.busyHeld = true then 1 else 0) = 0 from rfl] at h2
  omega

/-- Helper: with the context not disposed, `_handleNewSession` succeeds. -/
theorem handleNewSession_ok (s : SCState) (sess : SessionConn)
    (hd : s.isDisposed = false) :
    (handleNewSession s sess).1 = Except.ok sess.kernel := by
  rcases hsess : s.session with _ | old <;> simp [handleNewSession, hd, hsess]

/-- Helper: the attach step creates no remote session. -/
theorem creations_handleNewSession (s : SCState) (sess : SessionConn) :
    creations (handleNewSession s sess).2.2 = 0 :=
  handleNewSession_countP s sess isSessionCreated (fun _ => rfl) rfl (fun _ => rfl)
    (fun _ => rfl) (fun _ _ => rfl)

/-- Helper: `_startSession` records at most one creation, and none at all
when it fails. -/
theorem creations_startSession (env : Env) (s : SCState) (m : KernelOptions)
    (hd : s.isDisposed = false) :
    creations (startSession env s m).2.2 ≤ 1 ∧
    (∀ e, (startSession env s m).1 = Except.error e →
      creations (startSession env s m).2.2 = 0) := by
  rcases hr : env.startNewResults s.startNewCalls with _ | sess
  · simp [startSession, hd, hr, creations, List.countP_cons, isSessionCreated]
  · have h0 := creations_handleNewSession { s with startNewCalls := s.startNewCalls + 1 } sess
    constructor
    · have hlog := h0
      simp only [creations] at hlog
      rw [hd] at hlog
      simp only [startSession, hd, Bool.false_eq_true, if_false, hr, creations,
        List.countP_cons]
      simp [isSessionCreated, hlog]
    · intro e he
      simp only [startSession, hd, Bool.false_eq_true, if_false, hr] at he
      have hok := handleNewSession_ok
        { s with isDisposed := false, startNewCalls := s.startNewCalls + 1 } sess rfl
      rw [hok] at he
      cases he

/-- Helper: `_changeKernel` records at most one creation, and none at all
when it fails. -/
theorem creations_changeKernelPriv (env : Env) (s : SCState) (opts : KernelOptions) :
    creations (changeKernelPriv env s opts).2.2 ≤ 1 ∧
    (∀ e, (changeKernelPriv env s opts).1 = Except.error e →
      creations (changeKernelPriv env s opts).2.2 = 0) := by
  rcases hd : s.isDisposed with _ | _
  · rcases hsess : s.session with _ | sess
    · have h := creations_startSession env s opts hd
      simpa [changeKernelPriv, hd, hsess] using h
    · rcases hk : sess.kernel with _ | k
      · simp [changeKernelPriv, hd, hsess, hk, creations]
      · by_cases hst : k.status = KStatus.dead
        · have h := creations_startSession env s opts hd
          simpa [changeKernelPriv, hd, hsess, hk, hst] using h
        · rcases hip : env.inPlaceResult with _ | knew <;>
            simp [changeKernelPriv, hd, hsess, hk, hst, hip, creations,
              isSessionCreated, List.countP_cons]
  · simp [changeKernelPriv, hd, creations]

/-- Helper: `_changeKernel` never changes the disposed flag. -/
theorem changeKernelPriv_isDisposed (env : Env) (s : SCState) (opts : KernelOptions) :
    (changeKernelPriv env s opts).2.1.isDisposed = s.isDisposed := by
  rcases hd : s.isDisposed with _ | _
  · rcases hsess : s.session with _ | sess
    · rcases hr : env.startNewResults s.startNewCalls with _ | sess
      · simp [changeKernelPriv, startSession, hd, hsess, hr]
      · rcases hold : ({ s with startNewCalls := s.startNewCalls + 1 } : SCState).session
          with _ | old <;>
          simp [changeKernelPriv, startSession, handleNewSession, propSync, hd, hsess, hr,
            hold] <;>
          repeat' split <;> simp_all
    · rcases hk : sess.kernel with _ | k
      · simp [changeKernelPriv, hd, hsess, hk]
      · by_cases hst : k.status = KStatus.dead
        · rcases hr : env.startNewResults s.startNewCalls with _ | sess2
          · simp [changeKernelPriv, startSession, hd, hsess, hk, hst, hr]
          · simp only [changeKernelPriv, hd, Bool.false_eq_true, if_false, hsess, hk, hst,
              ne_eq, not_true_eq_false, if_false]
            rcases hold : ({ s with startNewCalls := s.startNewCalls + 1 } : SCState).session
              with _ | old <;>
              simp [startSession, handleNewSession, propSync, hd, hr, hold] <;>
              repeat' split <;> simp_all
        · rcases hip : env.inPlaceResult with _ | knew <;>
            simp [changeKernelPriv, hd, hsess, hk, hst, hip]
  · simp [changeKernelPriv, hd]

/-- Helper: the remote-shutdown request creates no session. -/
theorem creations_shutdownCtx (env : Env) (s : SCState) :
    creations (shutdownCtx env s).2.2 = 0 := by
  rcases hsess : s.session with _ | sess <;> rcases ho : env.shutdownOk with _ | _ <;>
    simp [shutdownCtx, hsess, ho, creations, List.countP_cons, isSessionCreated]

/-- Helper: the interactive selection fallback records at most one
creation. -/
theorem creations_selectKernelPriv (env : Env) (s : SCState) (c : Bool) :
    creations (selectKernelPriv env s c).2.2 ≤ 1 := by
  rcases hd : s.isDisposed with _ | _
  · rcases ha : env.dialogAccept with _ | _
    · simp [selectKernelPriv, hd, ha, creations, List.countP_cons, isSessionCreated]
    · rcases hv : env.dialogValue with _ | model
      · rcases hsess : s.session with _ | sess
        · simp [selectKernelPriv, hd, ha, hv, hsess, creations, List.countP_cons,
            isSessionCreated]
        · have h0 := creations_shutdownCtx env { s with dialog := false }
          simp only [creations] at h0
          rw [hd, hsess] at h0
          simp [selectKernelPriv, hd, ha, hv, hsess, creations, List.countP_cons,
            isSessionCreated, h0]
      · have h := (creations_changeKernelPriv env { s with dialog := false } model).1
        simp only [creations] at h
        rw [hd] at h
        simp only [selectKernelPriv, hd, Bool.false_eq_true, if_false, ha, or_false, hv,
          creations, List.countP_cons]
        simp [isSessionCreated]
        omega
  · simp [selectKernelPriv, hd, creations]

/-- Helper: one run of `_startIfNecessary` records at most one creation. -/
theorem creations_startIfNecessary (env : Env) (s : SCState) :
    creations (startIfNecessary env s).2.2 ≤ 1 := by
  unfold startIfNecessary
  split
  · simp [creations]
  · rcases hopt : resolveStartOptions env s with _ | opts
    · simp only [hopt]
      exact creations_selectKernelPriv env s false
    · simp only [hopt]
      rcases hck : changeKernelPriv env s opts with ⟨res, s1, log1⟩
      rcases res with e | k
      · have h0 := (creations_changeKernelPriv env s opts).2 e (by rw [hck])
        rw [hck] at h0
        have h2 := creations_selectKernelPriv env s1 false
        simp only [hck, creations, List.countP_append] at h0 h2 ⊢
        omega
      · have h := (creations_changeKernelPriv env s opts).1
        rw [hck] at h
        simp only [hck, creations] at h ⊢
        omega

/-- Helper: the attach step of the body records no remote creation. -/
theorem creations_attachIfRunning (env : Env) (s : SCState) :
    creations (attachIfRunning env s).2.2 = 0 := by
  unfold attachIfRunning
  split
  · split
    · simp [creations]
    · rename_i sess heqc
      split
      · rename_i a s1 log1 heq
        have h := creations_handleNewSession s sess
        rw [heq] at h
        simpa using h
      · rename_i e s1 log1 heq
        have h := creations_handleNewSession s sess
        rw [heq] at h
        simpa using h
  · simp [creations]

/-- Helper: one run of the `initialize` body records at most one remote
session creation (the attach step creates none, the start step at most
one). -/
theorem creations_initializeSeq (env : Env) (s : SCState) :
    creations (initializeSeq env s).2.2 ≤ 1 := by
  unfold initializeSeq
  split
  · simp [creations]
  · rcases hat : attachIfRunning env { s with initializing := true } with ⟨ares, s1, log1⟩
    have h1 := creations_attachIfRunning env { s with initializing := true }
    rw [hat] at h1
    simp only [creations] at h1
    rcases ares with e | a
    · simp only [hat, creations] at h1 ⊢
      omega
    · rcases hsi : startIfNecessary env s1 with ⟨res, s2, log2⟩
      have h2 := creations_startIfNecessary env s1
      rw [hsi] at h2
      simp only [creations] at h2
      rcases res with e | a2
      · simp only [hat, hsi, creations, List.countP_append] at h1 h2 ⊢
        omega
      · simp only [hat, hsi, creations, List.countP_append, List.countP_cons,
          List.countP_nil] at h1 h2 ⊢
        simp [isSessionCreated]
        omega

/-- Events of the initialization coalescing machine: a client call to
`initialize()` (its synchronous guard segment), or the resumption that
completes the started body. -/
inductive InitEvent
  | call
  | complete
  deriving DecidableEq, Repr

/-- Abstract state of the initialization machine: the `_initializing` and
`_isReady` flags, whether `_ready` has resolved, how many startup bodies
have ever started, and the identity of the one `_ready` promise delegate
(allocated at construction, never reassigned). -/
structure InitMState where
  initializing : Bool
  isReady : Bool
  readyResolved : Bool
  bodyRuns : Nat
  promiseId : Nat
  deriving DecidableEq, Repr

/-- What a caller of `initialize()` receives: joining the shared ready
promise, or starting the unique body (whose completion resolves that same
shared promise). -/
inductive InitCallResult
  | joined (pid : Nat)
  | started (pid : Nat)
  deriving DecidableEq, Repr

/-- Synchronous guard segment of `initialize` (lines 562-566): when a
body is in flight or done the caller immediately returns the shared
`_ready` promise; otherwise `_initializing` is set (the code never clears
it) and the unique startup body begins. -/
def initCallStep (s : InitMState) : InitMState × InitCallResult :=
  if s.initializing || s.isReady then (s, InitCallResult.joined s.promiseId)
  else ({ s with initializing := true, bodyRuns := s.bodyRuns + 1 },
    InitCallResult.started s.promiseId)

/-- Completion segment of the started body (lines 582-583): mark ready
and resolve the shared promise.  A completion event only arises from the
single started body; the guard keeps a spurious event inert. -/
def initCompleteStep (s : InitMState) : InitMState :=
  if s.initializing && !s.isReady then { s with isReady := true, readyResolved := true }
  else s

/-- One interleaving step of the initialization machine. -/
def initStep (s : InitMState) : InitEvent → InitMState × List InitCallResult
  | InitEvent.call => ((initCallStep s).1, [(initCallStep s).2])
  | InitEvent.complete => (initCompleteStep s, [])

/-- Run the machine over an arbitrary interleaving of calls and the
body's completion, collecting what each caller received. -/
def initRun (s : InitMState) : List InitEvent → InitMState × List InitCallResult
  | [] => (s, [])
  | e :: rest =>
    let r1 := initStep s e
    let r2 := initRun r1.1 rest
    (r2.1, r1.2 ++ r2.2)

/-- A freshly constructed context with ready-promise identity `pid`. -/
def initM0 (pid : Nat) : InitMState :=
  { initializing := false, isReady := false, readyResolved := false,
    bodyRuns := 0, promiseId := pid }

/-- Readiness rank: Uninitialized 0, Initializing 1, Ready 2. -/
def readyRank (s : InitMState) : Nat :=
  if s.isReady then 2 else if s.initializing then 1 else 0

/-- Helper: machine invariant — the promise identity is constant, the
body-run count tracks the `_initializing` latch, and every caller
receives the one shared promise. -/
theorem initRun_inv (evs : List InitEvent) (s : InitMState)
    (hb : s.bodyRuns = if s.initializing then 1 else 0)
    (himp : s.isReady = true → s.initializing = true) :
    (initRun s evs).1.promiseId = s.promiseId ∧
    ((initRun s evs).1.bodyRuns = if (initRun s evs).1.initializing then 1 else 0) ∧
    ((initRun s evs).1.initializing = (s.initializing || evs.contains InitEvent.call)) ∧
    (∀ r ∈ (initRun s evs).2,
      r = InitCallResult.joined s.promiseId ∨ r = InitCallResult.started s.promiseId) := by
  induction evs generalizing s with
  | nil => simp [initRun, hb]
  | cons e rest ih =>
    rcases e with _ | _
    · rcases hi : s.initializing with _ | _ <;> rcases hr : s.isReady with _ | _
      · have h := ih { s with initializing := true, bodyRuns := s.bodyRuns + 1 }
          (by simp [hb, hi]) (by simp)
        simpa [initRun, initStep, initCallStep, hi, hr, List.contains_cons] using h
      · exact absurd (himp hr) (by simp [hi])
      · have h := ih s hb himp
        simp only [initRun, initStep, initCallStep, hi, hr, Bool.true_or, if_true,
          List.contains_cons] at h ⊢
        simpa [hi] using h
      · have h := ih s hb himp
        simp only [initRun, initStep, initCallStep, hi, hr, Bool.or_true, if_true,
          List.contains_cons] at h ⊢
        simpa [hi] using h
    · rcases hi : s.initializing with _ | _ <;> rcases hr : s.isReady with _ | _
      · have h := ih s hb himp
        simpa [initRun, initStep, initCompleteStep, hi, hr, List.contains_cons] using h
      · exact absurd (himp hr) (by simp [hi])
      · have h := ih { s with isReady := true, readyResolved := true }
          (by simp [hb, hi]) (by simp [hi])
        simpa [initRun, initStep, initCompleteStep, hi, hr, List.contains_cons] using h
      · have h := ih s hb himp
        simpa [initRun, initStep, initCompleteStep, hi, hr, List.contains_cons] using h

/-- C1: concurrent or repeated `initialize()` calls are coalesced.  Over
every interleaving of calls and body completion from a fresh context:
exactly one startup body runs as soon as any call occurs, every caller
receives the same shared ready promise, and the readiness state advances
Uninitialized to Initializing to Ready one step at a time, never
regressing.  Moreover a single startup body performs at most one remote
session creation, for every environment and start state. -/
theorem C1_initialize_coalesced :
    (∀ (pid : Nat) (evs : List InitEvent),
      (initRun (initM0 pid) evs).1.promiseId = pid ∧
      ((initRun (initM0 pid) evs).1.bodyRuns =
        if evs.contains InitEvent.call then 1 else 0) ∧
      (∀ r ∈ (initRun (initM0 pid) evs).2,
        r = InitCallResult.joined pid ∨ r = InitCallResult.started pid)) ∧
    (∀ (s : InitMState) (e : InitEvent),
      readyRank s ≤ readyRank (initStep s e).1 ∧
      readyRank (initStep s e).1 ≤ readyRank s + 1) ∧
    (∀ (env : Env) (s : SCState), creations (initializeSeq env s).2.2 ≤ 1) := by
  refine ⟨fun pid evs => ?_, fun s e => ?_, fun env s => creations_initializeSeq env s⟩
  · have h := initRun_inv evs (initM0 pid) (by simp [initM0]) (by simp [initM0])
    have hcontains : (initRun (initM0 pid) evs).1.initializing =
        evs.contains InitEvent.call := by simpa [initM0] using h.2.2.1
    refine ⟨by simpa [initM0] using h.1, ?_, by simpa [initM0] using h.2.2.2⟩
    rw [h.2.1, hcontains]
  · rcases e with _ | _ <;>
      rcases hi : s.initializing with _ | _ <;> rcases hr : s.isReady with _ | _ <;>
        simp [initStep, initCallStep, initCompleteStep, readyRank, hi, hr]

/-- Closed witness for C1: two concurrent calls and a completion run the
body exactly once. -/
theorem C1_initialize_coalesced_witness :
    (initRun (initM0 5)
      [InitEvent.call, InitEvent.call, InitEvent.complete, InitEvent.call]).1.bodyRuns = 1 := by
  have h := (C1_initialize_coalesced.1 5
    [InitEvent.call, InitEvent.call, InitEvent.complete, InitEvent.call]).2.1
  simpa using h

/-- Helper: the attach step never resolves the ready promise. -/
theorem resolves_handleNewSession (s : SCState) (sess : SessionConn) :
    resolves (handleNewSession s sess).2.2 = 0 :=
  handleNewSession_countP s sess isResolveReady (fun _ => rfl) rfl (fun _ => rfl)
    (fun _ => rfl) (fun _ _ => rfl)

/-- Helper: `_startSession` never resolves the ready promise. -/
theorem resolves_startSession (env : Env) (s : SCState) (m : KernelOptions) :
    resolves (startSession env s m).2.2 = 0 := by
  rcases hd : s.isDisposed with _ | _
  · rcases hr : env.startNewResults s.startNewCalls with _ | sess
    · simp [startSession, hd, hr, resolves, List.countP_cons, isResolveReady]
    · have h0 := resolves_handleNewSession { s with startNewCalls := s.startNewCalls + 1 } sess
      simp only [resolves] at h0
      rw [hd] at h0
      simp only [startSession, hd, Bool.false_eq_true, if_false, hr, resolves,
        List.countP_cons]
      simp [isResolveReady, h0]
  · simp [startSession, hd, resolves]

/-- Helper: `_changeKernel` never resolves the ready promise. -/
theorem resolves_changeKernelPriv (env : Env) (s : SCState) (opts : KernelOptions) :
    resolves (changeKernelPriv env s opts).2.2 = 0 := by
  rcases hd : s.isDisposed with _ | _
  · rcases hsess : s.session with _ | sess
    · simpa [changeKernelPriv, hd, hsess] using resolves_startSession env s opts
    · rcases hk : sess.kernel with _ | k
      · simp [changeKernelPriv, hd, hsess, hk, resolves]
      · by_cases hst : k.status = KStatus.dead
        · simpa [changeKernelPriv, hd, hsess, hk, hst] using resolves_startSession env s opts
        · rcases hip : env.inPlaceResult with _ | knew <;>
            simp [changeKernelPriv, hd, hsess, hk, hst, hip, resolves,
              isResolveReady, List.countP_cons]
  · simp [changeKernelPriv, hd, resolves]

/-- Helper: the remote-shutdown request never resolves the ready promise. -/
theorem resolves_shutdownCtx (env : Env) (s : SCState) :
    resolves (shutdownCtx env s).2.2 = 0 := by
  rcases hsess : s.session with _ | sess <;> rcases ho : env.shutdownOk with _ | _ <;>
    simp [shutdownCtx, hsess, ho, resolves, List.countP_cons, isResolveReady]

/-- Helper: the interactive selection never resolves the ready promise. -/
theorem resolves_selectKernelPriv (env : Env) (s : SCState) (c : Bool) :
    resolves (selectKernelPriv env s c).2.2 = 0 := by
  rcases hd : s.isDisposed with _ | _
  · rcases ha : env.dialogAccept with _ | _
    · simp [selectKernelPriv, hd, ha, resolves, List.countP_cons, isResolveReady]
    · rcases hv : env.dialogValue with _ | model
      · rcases hsess : s.session with _ | sess
        · simp [selectKernelPriv, hd, ha, hv, hsess, resolves, List.countP_cons,
            isResolveReady]
        · have h0 := resolves_shutdownCtx env { s with dialog := false }
          simp only [resolves] at h0
          rw [hd, hsess] at h0
          simp [selectKernelPriv, hd, ha, hv, hsess, resolves, List.countP_cons,
            isResolveReady, h0]
      · have h := resolves_changeKernelPriv env { s with dialog := false } model
        simp only [resolves] at h
        rw [hd] at h
        simp only [selectKernelPriv, hd, Bool.false_eq_true, if_false, ha, or_false, hv,
          resolves, List.countP_cons]
        simp [isResolveReady, h]
  · simp [selectKernelPriv, hd, resolves]

/-- Helper: `_startIfNecessary` never resolves the ready promise. -/
theorem resolves_startIfNecessary (env : Env) (s : SCState) :
    resolves (startIfNecessary env s).2.2 = 0 := by
  unfold startIfNecessary
  split
  · simp [resolves]
  · rcases hopt : resolveStartOptions env s with _ | opts
    · simp only [hopt]
      exact resolves_selectKernelPriv env s false
    · simp only [hopt]
      rcases hck : changeKernelPriv env s opts with ⟨res, s1, log1⟩
      have h0 := resolves_changeKernelPriv env s opts
      rw [hck] at h0
      rcases res with e | k
      · have h2 := resolves_selectKernelPriv env s1 false
        simp only [hck, resolves, List.countP_append] at h0 h2 ⊢
        omega
      · simp only [hck, resolves] at h0 ⊢
        omega

/-- Helper: the attach step of the body never resolves the ready
promise. -/
theorem resolves_attachIfRunning (env : Env) (s : SCState) :
    resolves (attachIfRunning env s).2.2 = 0 := by
  unfold attachIfRunning
  split
  · split
    · simp [resolves]
    · rename_i sess heqc
      split
      · rename_i a s1 log1 heq
        have h := resolves_handleNewSession s sess
        rw [heq] at h
        simpa using h
      · rename_i e s1 log1 heq
        have h := resolves_handleNewSession s sess
        rw [heq] at h
        simpa using h
  · simp [resolves]

/-- A freshly constructed, never-initialized context. -/
def freshState : SCState :=
  { path := "p"
    name := ""
    type := ""
    prevKernelName := none
    kernelPreference := {}
    isDisposed := false
    session := none
    readyResolved := false
    initializing := false
    isReady := false
    dialog := false
    busyDisposable := false
    startNewCalls := 0 }

/-- An environment in which a running session exists at the bound path
but connecting to it fails. -/
def envAttachFail : Env :=
  { modelAtPath := true
    connectToResult := Except.error ()
    specs := none
    startNewResults := fun _ => Except.error ()
    inPlaceResult := Except.error ()
    dialogAccept := false
    dialogValue := none
    shutdownOk := true
    restartAccept := false
    kernelRestartOk := true }

/-- C2 counterexample: when attaching to an existing running session
fails, `initialize()` rejects without ever setting `isReady` or
resolving the shared ready promise — contradicting the claim that it
marks ready and releases all waiters even on the attach-failure path. -/
theorem C2_counterexample :
    (initializeSeq envAttachFail freshState).1 = Except.error Err.attachError ∧
    (initializeSeq envAttachFail freshState).2.1.isReady = false ∧
    (initializeSeq envAttachFail freshState).2.1.readyResolved = false ∧
    resolves (initializeSeq envAttachFail freshState).2.2 = 0 :=
  ⟨rfl, rfl, rfl, rfl⟩

/-- C2 amended: `initialize()` sets `isReady` and resolves the shared
ready promise exactly once whenever its body runs to completion; on the
attach-failure path the failure is rejected to the triggering caller
only, `isReady` is not set, the shared promise stays unresolved, and
`_initializing` stays latched (later callers join the pending promise). -/
theorem C2_ready_resolution (env : Env) (s : SCState)
    (h0 : s.initializing = false) (h1 : s.isReady = false) :
    ((initializeSeq env s).1 = Except.ok () →
      (initializeSeq env s).2.1.isReady = true ∧
      (initializeSeq env s).2.1.readyResolved = true ∧
      resolves (initializeSeq env s).2.2 = 1) ∧
    (env.modelAtPath = true → env.connectToResult = Except.error () →
      (initializeSeq env s).1 = Except.error Err.attachError ∧
      (initializeSeq env s).2.1.isReady = false ∧
      (initializeSeq env s).2.1.readyResolved = s.readyResolved ∧
      (initializeSeq env s).2.1.initializing = true ∧
      resolves (initializeSeq env s).2.2 = 0) := by
  constructor
  · intro hok
    rw [initializeSeq] at hok ⊢
    rw [if_neg (by simp [h0, h1])] at hok ⊢
    rcases hat : attachIfRunning env { s with initializing := true } with ⟨ares, s1, log1⟩
    have ha := resolves_attachIfRunning env { s with initializing := true }
    rw [hat] at ha
    simp only [resolves] at ha
    rcases ares with e | a
    · simp [hat] at hok
    · rcases hsi : startIfNecessary env s1 with ⟨res, s2, log2⟩
      have hs := resolves_startIfNecessary env s1
      rw [hsi] at hs
      simp only [resolves] at hs
      rcases res with e | a2
      · simp [hat, hsi] at hok
      · simp [hat, hsi, resolves, List.countP_append, List.countP_cons,
          List.countP_nil, isResolveReady, ha, hs]
  · intro hm hc
    rw [initializeSeq]
    rw [if_neg (by simp [h0, h1])]
    simp [attachIfRunning, hm, hc, resolves, h1]

/-- Closed witness for C2 at the attach-failure environment. -/
theorem C2_ready_resolution_witness :
    (initializeSeq envAttachFail freshState).2.1.initializing = true :=
  ((C2_ready_resolution envAttachFail freshState rfl rfl).2 rfl rfl).2.2.2.1

/-- A ready, undisposed context retaining a session whose kernel is
null, with a previous kernel name recorded — a "no live kernel" state. -/
def kernellessSessionState : SCState :=
  { sampleReadyState with
    session := some { id := 1, path := "p", name := "n", type := "t", kernel := none } }

/-- C8 counterexample: in a "no live kernel" state where a session is
still attached but its kernel is null, `restart()` neither starts the
recorded previous kernel nor resolves `true`: the delegated
`_changeKernel` faults on the unguarded `session.kernel.status` read. -/
theorem C8_counterexample :
    (restartCtx envAttachFail kernellessSessionState).1 =
      Except.error Err.nullKernelTypeError ∧
    (restartCtx envAttachFail kernellessSessionState).1 ≠ Except.ok true := by
  refine ⟨rfl, ?_⟩
  intro h
  rw [show (restartCtx envAttachFail kernellessSessionState).1 =
      Except.error Err.nullKernelTypeError from rfl] at h
  cases h

/-- C8 amended: for an initialized, non-disposed context with no current
connection, `restart()` starts a new session with the recorded previous
kernel name (when one is recorded and the remote start succeeds) and
resolves `true`; with no recorded name it fails with the
no-kernel-to-restart error. -/
theorem C8_restart_previous_kernel (env : Env) (s : SCState)
    (hready : s.isReady = true) (hdisp : s.isDisposed = false)
    (hsess : s.session = none) :
    (jsTruthyS s.prevKernelName = false →
      (restartCtx env s).1 = Except.error Err.noKernelToRestart) ∧
    (∀ n newSess, s.prevKernelName = some n → jsTruthyS (some n) = true →
      env.startNewResults s.startNewCalls = Except.ok newSess →
      (restartCtx env s).1 = Except.ok true ∧
      Effect.startNewReq s.path s.type s.name { name := some n, id := none } ∈
        (restartCtx env s).2.2) := by
  constructor
  · intro hprev
    simp [restartCtx, initializeSeq, hready, hdisp, hsess, hprev]
  · intro n newSess hn htr hstart
    constructor
    · simp [restartCtx, changeKernelPub, initializeSeq, changeKernelPriv, startSession,
        handleNewSession, propSync, hready, hdisp, hsess, hn, htr, hstart]
    · simp [restartCtx, changeKernelPub, initializeSeq, changeKernelPriv, startSession,
        handleNewSession, propSync, hready, hdisp, hsess, hn, htr, hstart]

/-- Closed witness for C8 at a session-less ready context with recorded
previous kernel `python3` and a succeeding remote start. -/
theorem C8_restart_previous_kernel_witness :
    (restartCtx
      { envAttachFail with startNewResults := fun _ => Except.ok sampleConn }
      { sampleReadyState with session := none }).1 = Except.ok true :=
  ((C8_restart_previous_kernel
      { envAttachFail with startNewResults := fun _ => Except.ok sampleConn }
      { sampleReadyState with session := none } rfl rfl rfl).2
    "python3" sampleConn rfl rfl rfl).1

end SessionCtx
